import Mathlib

/-!
Verification of the `linear_algebra` repository (vector.py, line.py).

The Python code works on tuples of `decimal.Decimal` values (exact decimal
fractions) with occasional excursions through binary floats for `sqrt`,
`round` and `acos`.  The shallow embedding below represents every decimal
quantity by an exact rational (`ℚ`) and the values of the transcendental
computations (`sqrt`, `acos`) by exact reals (`ℝ`).  Python exceptions are
modelled by an explicit error type and `Except`.

Two genuine slips of the source are reproduced faithfully because several
claims hinge on them:
  * `Vector.normalized` (vector.py line 57) raises
    `Exception(CANNOT_NORMALIZE_ZERO_VECTOR_MSG)` with the constant name
    unqualified (no `self.`), so Python raises a `NameError` instead;
  * `Vector.cross` (vector.py line 86) calls lowercase `vector(...)`,
    an undefined name, so the 2-dimensional branch raises a `NameError`;
  * `Line.__eq__` (line.py lines 86-90) calls `.is_orthogonal_to` on the
    raw list returned by `Vector.minus`, an `AttributeError`.
-/

namespace LinAlg

/-- Python exception values, tagged by exception class; the payload is the
string `str(e)` that the source code's handlers compare against. -/
inductive PyErr where
  | nameError (msg : String)
  | attributeError (msg : String)
  | valueError (msg : String)
  | indexError (msg : String)
  | exception (msg : String)
  deriving Repr, DecidableEq

/-- Python `str(e)` on an exception value. -/
def errMsg : PyErr → String
  | .nameError m => m
  | .attributeError m => m
  | .valueError m => m
  | .indexError m => m
  | .exception m => m

/-- vector.py line 12. -/
def CANNOT_NORMALIZE_ZERO_VECTOR_MSG : String := "Cannot normalize the zero vector"

/-- vector.py line 13. -/
def NO_UNIQUE_ORTHOGONAL_COMPONENT_MSG : String := "No unique orthogonal component"

/-- vector.py line 14. -/
def NO_UNIQUE_PARALLEL_COMPONENT_MSG : String := "No unique parallel component"

/-- vector.py line 15. -/
def ONLY_DEFINED_IN_TWO_THREE_DIMS_MSG : String := "Only defined in two or three dimensions"

/-- line.py line 11. -/
def NO_NONZERO_ELTS_FOUND_MSG : String := "No nonzero elements found"

/-- Message of the `NameError` raised at vector.py line 57: the handler of
`normalized` writes `CANNOT_NORMALIZE_ZERO_VECTOR_MSG` without `self.`, an
unbound name.  (Python quotes the name; the quotes are elided here.) -/
def NAME_ERROR_UNBOUND_CONSTANT_MSG : String :=
  "global name CANNOT_NORMALIZE_ZERO_VECTOR_MSG is not defined"

/-- Message of the `NameError` raised at vector.py line 86: the 2D branch of
`cross` calls lowercase `vector(...)`, an undefined name. -/
def NAME_ERROR_LOWERCASE_VECTOR_MSG : String := "global name vector is not defined"

/-- Message of the `AttributeError` raised at line.py line 90:
`basepoint_difference` is the raw list returned by `Vector.minus`. -/
def ATTR_ERROR_LIST_MSG : String := "list object has no attribute is_orthogonal_to"

/-- Message of the `AttributeError` raised at line.py line 86 when
`self.basepoint` is `None` (zero normal vector). -/
def ATTR_ERROR_NONE_MINUS_MSG : String := "NoneType object has no attribute minus"

/-- Message of the `AttributeError` raised inside `Vector.minus` (vector.py
line 143) when the argument is `None` and `v.coordinates` is accessed. -/
def ATTR_ERROR_NONE_COORDS_MSG : String := "NoneType object has no attribute coordinates"

/-- vector.py lines 8-29: a vector is a tuple of Decimal coordinates,
embedded as exact rationals. -/
structure Vector where
  coordinates : List ℚ
  deriving Repr, DecidableEq

/-- vector.py line 23: `self.dimension = len(coordinates)`. -/
def Vector.dimension (v : Vector) : Nat := v.coordinates.length

/-- vector.py lines 151-152: `__getitem__` returns `self.coordinates[i]`.
Out-of-range access (Python `IndexError`) is modelled by `none`; the Line
module only indexes with in-range nonnegative indices. -/
def Vector.getItem (v : Vector) (i : Nat) : Option ℚ := v.coordinates.get? i

/-- The exact value of `sum([x**2 for x in self.coordinates])`
(vector.py lines 48-49), i.e. the square of the magnitude. -/
def Vector.sumSq (v : Vector) : ℚ := (v.coordinates.map (fun x => x * x)).sum

/-- The tolerance `1e-10` used throughout vector.py and line.py. -/
def eps : ℚ := 1 / 10 ^ 10

/-- vector.py lines 42-44: `is_zero` is `self.magnitude() < 1e-10`.  Since
`magnitude = sqrt (sumSq)` and both sides are nonnegative, this is the
decidable rational test `sumSq < (1e-10)^2`; the equivalence with the
real-valued form is proved in `Vector.is_zero_iff_magnitude_lt` below. -/
def Vector.is_zero (v : Vector) : Bool := decide (v.sumSq < eps * eps)

/-- vector.py lines 59-61: `dot` zips the two coordinate tuples (silently
truncating to the shorter one) and sums the pairwise products. -/
def Vector.dot (v w : Vector) : ℚ :=
  ((v.coordinates.zip w.coordinates).map (fun p => p.1 * p.2)).sum

/-- vector.py lines 31-33: `is_orthogonal_to` is `abs(self.dot(v)) < 1e-10`. -/
def Vector.is_orthogonal_to (v w : Vector) : Bool := decide (|v.dot w| < eps)

/-- vector.py lines 136-139: `plus` returns the raw list of pairwise sums
(not a `Vector`), zipping the coordinate tuples. -/
def Vector.plus (v w : Vector) : List ℚ :=
  (v.coordinates.zip w.coordinates).map (fun p => p.1 + p.2)

/-- vector.py lines 141-144: `minus` returns the raw list of pairwise
differences (not a `Vector`). -/
def Vector.minus (v w : Vector) : List ℚ :=
  (v.coordinates.zip w.coordinates).map (fun p => p.1 - p.2)

/-- vector.py lines 146-149: `times_scalar` returns the raw list
`[Decimal(c)*x for x in self.coordinates]`. -/
def Vector.times_scalar (v : Vector) (c : ℚ) : List ℚ :=
  v.coordinates.map (fun x => c * x)

/-- vector.py lines 72-92: `cross` unpacks both coordinate tuples into three
components.  Both 3-dimensional: the standard formula.  `self` (or `self`
3-dimensional and the argument) 2-dimensional: Python raises
`ValueError("need more than 2 values to unpack")`, and the handler, after
embedding `self` into R3, calls the undefined lowercase name `vector`,
raising a `NameError`.  A 1-dimensional or more-than-3-dimensional tuple
gives the other two `ValueError` messages, re-raised as
`Exception(ONLY_DEFINED_IN_TWO_THREE_DIMS_MSG)`.  An empty tuple raises
`ValueError("need more than 0 values to unpack")`, which matches no handler
branch and is re-raised as is (vectors are never empty in practice). -/
def Vector.cross (v w : Vector) : Except PyErr Vector :=
  match v.coordinates with
  | [x1, y1, z1] =>
    match w.coordinates with
    | [x2, y2, z2] =>
      .ok ⟨[y1 * z2 - y2 * z1, -(x1 * z2 - x2 * z1), x1 * y2 - x2 * y1]⟩
    | [_, _] => .error (.nameError NAME_ERROR_LOWERCASE_VECTOR_MSG)
    | [] => .error (.valueError "need more than 0 values to unpack")
    | _ => .error (.exception ONLY_DEFINED_IN_TWO_THREE_DIMS_MSG)
  | [_, _] => .error (.nameError NAME_ERROR_LOWERCASE_VECTOR_MSG)
  | [] => .error (.valueError "need more than 0 values to unpack")
  | _ => .error (.exception ONLY_DEFINED_IN_TWO_THREE_DIMS_MSG)

/-- vector.py lines 46-49: `magnitude` is `sqrt(sum([x**2 for x in
coordinates]))`, taken as an exact real. -/
noncomputable def Vector.magnitude (v : Vector) : ℝ := Real.sqrt (v.sumSq : ℝ)

/-- The coordinate list of a vector viewed over the reals. -/
def toR (v : Vector) : List ℝ := v.coordinates.map (fun (x : ℚ) => (x : ℝ))

/-- The value produced by vector.py line 55 when the magnitude is nonzero:
`self.times_scalar(Decimal('1.0')/Decimal(magnitude))`, i.e. every
coordinate multiplied by `1/magnitude`. -/
noncomputable def Vector.normalizedVal (v : Vector) : List ℝ :=
  v.coordinates.map (fun (x : ℚ) => 1 / v.magnitude * (x : ℝ))

/-- vector.py lines 51-57: `normalized`.  The division raises
`ZeroDivisionError` exactly when the magnitude is zero, i.e. when `sumSq`
is zero; the handler then references the unqualified name
`CANNOT_NORMALIZE_ZERO_VECTOR_MSG`, so what is actually raised is a
`NameError` (not the intended `Exception`).  The code wraps the result list
in a `Vector`; since the coordinates are irrational reals the embedding
keeps the raw real list. -/
noncomputable def Vector.normalized (v : Vector) : Except PyErr (List ℝ) :=
  if v.sumSq = 0 then .error (.nameError NAME_ERROR_UNBOUND_CONSTANT_MSG)
  else .ok v.normalizedVal

/-- Real-valued dot product of two raw coordinate lists (vector.py
lines 59-61 applied to normalized vectors). -/
def dotR (xs ys : List ℝ) : ℝ := ((xs.zip ys).map (fun p => p.1 * p.2)).sum

/-- Real-valued `times_scalar` on a raw coordinate list. -/
def times_scalarR (c : ℝ) (xs : List ℝ) : List ℝ := xs.map (fun x => c * x)

/-- Real-valued `minus` on raw coordinate lists. -/
def minusR (xs ys : List ℝ) : List ℝ := (xs.zip ys).map (fun p => p.1 - p.2)

/-- Real-valued `plus` on raw coordinate lists. -/
def plusR (xs ys : List ℝ) : List ℝ := (xs.zip ys).map (fun p => p.1 + p.2)

/-- vector.py lines 106-117: `component_parallel_to`.  On a zero basis,
`normalized` raises the `NameError` described above, whose message is not
`CANNOT_NORMALIZE_ZERO_VECTOR_MSG`, so the handler re-raises the
`NameError` unchanged (the documented `NoUniqueParallelComponent` branch is
dead code). -/
noncomputable def Vector.component_parallel_to (v basis : Vector) : Except PyErr (List ℝ) :=
  match basis.normalized with
  | .ok u => .ok (times_scalarR (dotR (toR v) u) u)
  | .error e =>
    if errMsg e = CANNOT_NORMALIZE_ZERO_VECTOR_MSG then
      .error (.exception NO_UNIQUE_PARALLEL_COMPONENT_MSG)
    else .error e

/-- vector.py lines 94-104: `component_orthogonal_to` is
`self.minus(Vector(component_parallel_to(basis)))`; an error whose message
is `NO_UNIQUE_PARALLEL_COMPONENT_MSG` would be converted, any other error
(in particular the `NameError` actually raised on a zero basis) is
re-raised unchanged. -/
noncomputable def Vector.component_orthogonal_to (v basis : Vector) : Except PyErr (List ℝ) :=
  match v.component_parallel_to basis with
  | .ok proj => .ok (minusR (toR v) proj)
  | .error e =>
    if errMsg e = NO_UNIQUE_PARALLEL_COMPONENT_MSG then
      .error (.exception NO_UNIQUE_ORTHOGONAL_COMPONENT_MSG)
    else .error e

/-- Python 2 `round` to `n` fractional digits rounds half away from zero;
integer-valued rounding of a rational, half away from zero. -/
def roundHalfAwayQ (y : ℚ) : ℤ := if 0 ≤ y then ⌊y + 1 / 2⌋ else -⌊-y + 1 / 2⌋

/-- `round(x, 10)` of line.py line 61, exact over the rationals. -/
def roundQ10 (x : ℚ) : ℚ := (roundHalfAwayQ (x * 10 ^ 10) : ℤ) / 10 ^ 10

/-- Integer-valued rounding of a real, half away from zero. -/
noncomputable def roundHalfAwayR (y : ℝ) : ℤ := if 0 ≤ y then ⌊y + 1 / 2⌋ else -⌊-y + 1 / 2⌋

/-- `round(x, 4)` of vector.py line 124, exact over the reals. -/
noncomputable def roundR4 (x : ℝ) : ℝ := (roundHalfAwayR (x * 10 ^ 4) : ℤ) / 10 ^ 4

/-- The argument passed to `acos` at vector.py line 124:
`round(float(u1.dot(u2)), 4)` for the two normalized vectors. -/
noncomputable def Vector.angle_arg (v w : Vector) : ℝ :=
  roundR4 (dotR v.normalizedVal w.normalizedVal)

/-- The radian value `acos(round(float(u1.dot(u2)), 4))` of vector.py
line 124 (meaningful when both magnitudes are nonzero). -/
noncomputable def Vector.angle_radians (v w : Vector) : ℝ :=
  Real.arccos (v.angle_arg w)

/-- vector.py lines 119-134: `angle_with`.  When either vector has zero
magnitude, `normalized` raises the `NameError` described above; the
handler prints it, compares its message against
`CANNOT_NORMALIZE_ZERO_VECTOR_MSG` (no match), has no `else`, and the
function falls off the end: Python returns `None`.  Hence the result type
`Option ℝ` inside `Except`: the zero-vector path yields `.ok none`, and no
exception ever escapes. -/
noncomputable def Vector.angle_with (v w : Vector) (in_degrees : Bool) :
    Except PyErr (Option ℝ) :=
  if v.sumSq = 0 ∨ w.sumSq = 0 then .ok none
  else .ok (some (if in_degrees then v.angle_radians w * (180 / Real.pi)
                  else v.angle_radians w))

/-- vector.py lines 35-40: `is_parallel_to` is
`self.is_zero() or v.is_zero() or self.angle_with(v) == 0 or
self.angle_with(v) == pi`.  When both `is_zero` tests are false the
magnitudes are nonzero and `angle_with` returns the radian value
`angle_radians`. -/
noncomputable def Vector.is_parallel_to (v w : Vector) : Prop :=
  v.is_zero = true ∨ w.is_zero = true ∨
    v.angle_radians w = 0 ∨ v.angle_radians w = Real.pi

/-- line.py lines 156-159: `MyDecimal.is_near_zero` is `abs(self) < eps`
with `eps = 1e-10`. -/
def MyDecimal.is_near_zero (x : ℚ) : Bool := decide (|x| < eps)

/-- line.py lines 8-27: a 2D line `normal_vector . x = constant_term`.
The constructor defaults an omitted normal vector to `Vector(['0','0'])`
and an omitted constant term to `Decimal('0')`; the embedding works with
the stored attributes directly. -/
structure Line where
  normal_vector : Vector
  constant_term : ℚ
  deriving Repr, DecidableEq

/-- line.py line 16: `self.dimension = 2`, fixed for every line. -/
def Line.dimension : Nat := 2

/-- The loop of line.py lines 150-152: `for k, item in enumerate(iterable):
if not MyDecimal(item).is_near_zero(): return k`, threading the running
index. -/
def firstNonzeroFrom : List ℚ → Nat → Option Nat
  | [], _ => none
  | x :: xs, k =>
    if MyDecimal.is_near_zero x then firstNonzeroFrom xs (k + 1) else some k

/-- line.py lines 147-153: `first_nonzero_index` returns the first index
whose coefficient fails the near-zero test, and raises
`Exception(NO_NONZERO_ELTS_FOUND_MSG)` when every coefficient is
near-zero. -/
def Line.first_nonzero_index (v : Vector) : Except PyErr Nat :=
  match firstNonzeroFrom v.coordinates 0 with
  | some k => .ok k
  | none => .error (.exception NO_NONZERO_ELTS_FOUND_MSG)

/-- line.py lines 30-47: `set_basepoint` builds `['0'] * 2`, writes
`constant_term / initial_coefficient` at the first non-near-zero index of
the normal vector, and wraps the list in a `Vector`; when
`first_nonzero_index` raises `NO_NONZERO_ELTS_FOUND_MSG` the handler sets
the basepoint to `None` (the absence marker), and any other exception is
re-raised.  A first nonzero index at position 2 or beyond (only possible
for a normal vector of more than 2 coordinates) would make the Python list
assignment raise an `IndexError`. -/
def Line.set_basepoint (l : Line) : Except PyErr (Option Vector) :=
  match Line.first_nonzero_index l.normal_vector with
  | .ok k =>
    match l.normal_vector.getItem k with
    | some coef =>
      if k < 2 then
        .ok (some ⟨(List.replicate 2 (0 : ℚ)).set k (l.constant_term / coef)⟩)
      else .error (.indexError "list assignment index out of range")
    | none => .error (.indexError "tuple index out of range")
  | .error e =>
    if errMsg e = NO_NONZERO_ELTS_FOUND_MSG then .ok none else .error e

/-- The stored `self.basepoint` attribute: the value `set_basepoint`
assigned at construction time.  (When `set_basepoint` raises, the Line
object is never constructed, so the error case is unreachable for any
line in existence; it is mapped to `none` for totality.) -/
def Line.basepoint (l : Line) : Option Vector :=
  match l.set_basepoint with
  | .ok b => b
  | .error _ => none

/-- line.py lines 92-97: `is_parallel_to` delegates to the normal
vectors. -/
noncomputable def Line.is_parallel_to (l m : Line) : Prop :=
  l.normal_vector.is_parallel_to m.normal_vector

open scoped Classical in
/-- line.py lines 70-90: `__eq__`.  Zero normal vectors are compared by
constant term; a zero on one side only gives `False`; non-parallel lines
give `False`; and in the remaining (parallel, nonzero normals) case the
code computes `x0.minus(y0)` - a raw Python list - and calls
`.is_orthogonal_to` on it, raising an `AttributeError` (with a different
message when a basepoint is `None`, which happens for near-zero normal
vectors that still fail the `is_zero` magnitude test). -/
noncomputable def Line.eq (l m : Line) : Except PyErr Bool :=
  if l.normal_vector.is_zero then
    if m.normal_vector.is_zero then
      .ok (MyDecimal.is_near_zero (l.constant_term - m.constant_term))
    else .ok false
  else if m.normal_vector.is_zero then .ok false
  else if ¬ l.is_parallel_to m then .ok false
  else
    match l.basepoint, m.basepoint with
    | none, _ => .error (.attributeError ATTR_ERROR_NONE_MINUS_MSG)
    | some _, none => .error (.attributeError ATTR_ERROR_NONE_COORDS_MSG)
    | some _, some _ => .error (.attributeError ATTR_ERROR_LIST_MSG)

/-- The three possible Python results of `intersection_with`: the raw
coordinate list returned by `times_scalar` (a point), `self` (same line),
or `None` (parallel and distinct). -/
inductive Intersection where
  | point (coords : List ℚ)
  | same (l : Line)
  | noIntersection
  deriving Repr, DecidableEq

/-- line.py lines 49-68: `intersection_with`.  Unpacks `A, B` and `C, D`
from the two normal vectors (a `ValueError` propagates if either is not
2-dimensional), computes `1 / round(A*D - B*C, 10)` - the
`ZeroDivisionError` when the rounded determinant is zero is caught, and
the equality test decides between `self` and `None`; otherwise the Cramer
numerators are scaled by the reciprocal of the rounded determinant. -/
noncomputable def Line.intersection_with (l m : Line) : Except PyErr Intersection :=
  match l.normal_vector.coordinates, m.normal_vector.coordinates with
  | [A, B], [C, D] =>
    if roundQ10 (A * D - B * C) = 0 then
      match Line.eq l m with
      | .ok true => .ok (Intersection.same l)
      | .ok false => .ok Intersection.noIntersection
      | .error e => .error e
    else
      .ok (Intersection.point
        ((Vector.mk [D * l.constant_term - B * m.constant_term,
                     -C * l.constant_term + A * m.constant_term]).times_scalar
          (1 / roundQ10 (A * D - B * C))))
  | _, _ => .error (.valueError "unpack")

/-! Bridge lemmas tying the decidable rational tests used in the embedding
to the real-valued formulations of the source. -/

theorem Vector.sumSq_nonneg (v : Vector) : 0 ≤ v.sumSq := by
  apply List.sum_nonneg
  intro x hx
  simp only [List.mem_map] at hx
  obtain ⟨y, _, rfl⟩ := hx
  exact mul_self_nonneg y

/-- The embedded `is_zero` coincides with the source test
`magnitude() < 1e-10`. -/
theorem Vector.is_zero_iff_magnitude_lt (v : Vector) :
    v.is_zero = true ↔ v.magnitude < ((eps : ℚ) : ℝ) := by
  rw [Vector.is_zero, decide_eq_true_eq, Vector.magnitude,
    Real.sqrt_lt' (by norm_num [eps])]
  rw [show ((eps : ℚ) : ℝ) ^ 2 = ((eps * eps : ℚ) : ℝ) by push_cast; ring]
  exact ⟨fun h => by exact_mod_cast h, fun h => by exact_mod_cast h⟩

/-- The `ZeroDivisionError` condition of `normalized`: the magnitude is zero
exactly when `sumSq` is zero. -/
theorem Vector.magnitude_eq_zero_iff (v : Vector) : v.magnitude = 0 ↔ v.sumSq = 0 := by
  rw [Vector.magnitude, Real.sqrt_eq_zero']
  constructor
  · intro h
    have h' : v.sumSq ≤ 0 := by exact_mod_cast h
    exact le_antisymm h' v.sumSq_nonneg
  · intro h
    rw [h]
    norm_num

theorem Vector.magnitude_pos (v : Vector) (h : v.sumSq ≠ 0) : 0 < v.magnitude := by
  rw [Vector.magnitude]
  apply Real.sqrt_pos.mpr
  exact_mod_cast lt_of_le_of_ne v.sumSq_nonneg (Ne.symm h)

/-- Rounding the exact value `1` to four fractional digits gives `1`. -/
theorem roundR4_one : roundR4 1 = 1 := by
  have h0 : (0 : ℝ) ≤ 1 * 10 ^ 4 := by norm_num
  have hf : ⌊(1 : ℝ) * 10 ^ 4 + 1 / 2⌋ = (10000 : ℤ) := by
    rw [Int.floor_eq_iff]
    constructor <;> norm_num
  rw [roundR4, roundHalfAwayR, if_pos h0, hf]
  norm_num

/-- For two 2-dimensional vectors whose dot product equals the product of
their magnitudes (i.e. exactly parallel, same orientation), the dot product
of the normalized vectors computed by the code is exactly `1`. -/
theorem dotR_normalizedVal_eq_one (a b p q : ℚ)
    (hs : (Vector.mk [a, b]).sumSq ≠ 0) (ht : (Vector.mk [p, q]).sumSq ≠ 0)
    (hd : ((a * p + b * q : ℚ) : ℝ) =
      (Vector.mk [a, b]).magnitude * (Vector.mk [p, q]).magnitude) :
    dotR (Vector.mk [a, b]).normalizedVal (Vector.mk [p, q]).normalizedVal = 1 := by
  have h1 := (Vector.mk [a, b]).magnitude_pos hs
  have h2 := (Vector.mk [p, q]).magnitude_pos ht
  push_cast at hd
  simp only [Vector.normalizedVal, dotR, List.map_cons, List.map_nil,
    List.zip_cons_cons, List.zip_nil_right, List.sum_cons, List.sum_nil, add_zero]
  field_simp
  nlinarith [hd, h1, h2]

/-- Under the same hypotheses the computed angle is exactly zero
(`acos(round(1, 4)) = acos(1) = 0`). -/
theorem angle_radians_eq_zero (a b p q : ℚ)
    (hs : (Vector.mk [a, b]).sumSq ≠ 0) (ht : (Vector.mk [p, q]).sumSq ≠ 0)
    (hd : ((a * p + b * q : ℚ) : ℝ) =
      (Vector.mk [a, b]).magnitude * (Vector.mk [p, q]).magnitude) :
    (Vector.mk [a, b]).angle_radians (Vector.mk [p, q]) = 0 := by
  rw [Vector.angle_radians, Vector.angle_arg,
    dotR_normalizedVal_eq_one a b p q hs ht hd, roundR4_one, Real.arccos_one]

/-- In the parallel branch of `Line.__eq__` with two constructed basepoints,
the code always raises the `AttributeError` on the raw list returned by
`Vector.minus`. -/
theorem line_eq_crash (l m : Line)
    (h1 : l.normal_vector.is_zero = false) (h2 : m.normal_vector.is_zero = false)
    (hp : l.is_parallel_to m) (x y : Vector)
    (hx : l.basepoint = some x) (hy : m.basepoint = some y) :
    Line.eq l m = Except.error (PyErr.attributeError ATTR_ERROR_LIST_MSG) := by
  unfold Line.eq
  rw [if_neg (by simp [h1]), if_neg (by simp [h2]),
    if_neg (not_not_intro hp), hx, hy]

/-- `set_basepoint` on a 2-dimensional normal vector, case of two
near-zero coefficients: the absence marker, no error. -/
theorem set_basepoint_none (A B c : ℚ) (hA : |A| < eps) (hB : |B| < eps) :
    Line.set_basepoint ⟨⟨[A, B]⟩, c⟩ = Except.ok none := by
  have hA' : MyDecimal.is_near_zero A = true := by
    rw [MyDecimal.is_near_zero, decide_eq_true_eq]
    exact hA
  have hB' : MyDecimal.is_near_zero B = true := by
    rw [MyDecimal.is_near_zero, decide_eq_true_eq]
    exact hB
  simp [Line.set_basepoint, Line.first_nonzero_index, firstNonzeroFrom, hA', hB', errMsg]

/-- `set_basepoint`, case of a first coefficient failing the near-zero
test: the point `(c / A, 0)`. -/
theorem set_basepoint_fst (A B c : ℚ) (hA : eps ≤ |A|) :
    Line.set_basepoint ⟨⟨[A, B]⟩, c⟩ = Except.ok (some ⟨[c / A, 0]⟩) := by
  have hA' : MyDecimal.is_near_zero A = false := by
    rw [MyDecimal.is_near_zero, decide_eq_false_iff_not]
    exact not_lt.mpr hA
  simp [Line.set_basepoint, Line.first_nonzero_index, firstNonzeroFrom, hA',
    Vector.getItem, List.replicate]

/-- `set_basepoint`, case of a near-zero first coefficient and a second
coefficient failing the near-zero test: the point `(0, c / B)`. -/
theorem set_basepoint_snd (A B c : ℚ) (hA : |A| < eps) (hB : eps ≤ |B|) :
    Line.set_basepoint ⟨⟨[A, B]⟩, c⟩ = Except.ok (some ⟨[0, c / B]⟩) := by
  have hA' : MyDecimal.is_near_zero A = true := by
    rw [MyDecimal.is_near_zero, decide_eq_true_eq]
    exact hA
  have hB' : MyDecimal.is_near_zero B = false := by
    rw [MyDecimal.is_near_zero, decide_eq_false_iff_not]
    exact not_lt.mpr hB
  simp [Line.set_basepoint, Line.first_nonzero_index, firstNonzeroFrom, hA', hB',
    Vector.getItem, List.replicate]

/-- C2: the claim states that for every pair of Lines, `==` follows the
three-case rule ending, for parallel lines with nonzero normal vectors, in
the orthogonality test between the basepoint difference and the normal
vector.  The code instead crashes there: `x0.minus(y0)` is a raw Python
list and `.is_orthogonal_to` is not an attribute of lists.  Concretely,
comparing the line `x = 1` (normal vector `(1, 0)`, constant term `1`)
with itself raises an `AttributeError` instead of returning `True`. -/
theorem c2_line_eq_crashes_on_parallel_lines :
    Line.eq ⟨⟨[1, 0]⟩, 1⟩ ⟨⟨[1, 0]⟩, 1⟩ =
      Except.error (PyErr.attributeError ATTR_ERROR_LIST_MSG) := by
  have hnz : MyDecimal.is_near_zero (1 : ℚ) = false := by
    rw [MyDecimal.is_near_zero, decide_eq_false_iff_not]
    norm_num [eps]
  have hz1 : (Vector.mk [(1 : ℚ), 0]).is_zero = false := by
    rw [Vector.is_zero, decide_eq_false_iff_not]
    norm_num [Vector.sumSq, eps]
  have hs1 : (Vector.mk [(1 : ℚ), 0]).sumSq ≠ 0 := by norm_num [Vector.sumSq]
  have hd : (((1 : ℚ) * 1 + 0 * 0 : ℚ) : ℝ) =
      (Vector.mk [(1 : ℚ), 0]).magnitude * (Vector.mk [(1 : ℚ), 0]).magnitude := by
    norm_num [Vector.magnitude, Vector.sumSq, Real.sqrt_one]
  have hbp : (Line.mk ⟨[(1 : ℚ), 0]⟩ 1).basepoint = some ⟨[1, 0]⟩ := by
    norm_num [Line.basepoint, Line.set_basepoint, Line.first_nonzero_index,
      firstNonzeroFrom, hnz, Vector.getItem, List.replicate]
  exact line_eq_crash _ _ hz1 hz1
    (Or.inr (Or.inr (Or.inl (angle_radians_eq_zero 1 0 1 0 hs1 hs1 hd))))
    _ _ hbp hbp

/-- C3: for 3-dimensional vectors `cross` does compute the standard formula
(second conjunct), but for 2-dimensional vectors the claimed
embed-into-R3-and-recurse path never runs: the handler at vector.py line 86
calls the undefined lowercase name `vector`, so the call raises a
`NameError` instead of returning the embedded cross product. -/
theorem c3_cross_two_dim_raises_name_error :
    Vector.cross ⟨[1, 2]⟩ ⟨[3, 4]⟩ =
      Except.error (PyErr.nameError NAME_ERROR_LOWERCASE_VECTOR_MSG) ∧
    Vector.cross ⟨[1, 2, 3]⟩ ⟨[2, 3, 4]⟩ = Except.ok ⟨[-1, 2, -1]⟩ :=
  ⟨rfl, by norm_num [Vector.cross]⟩

/-- C4: the claim states that a zero basis makes `component_parallel_to`
fail with `NoUniqueParallelComponent` and `component_orthogonal_to` with
`NoUniqueOrthogonalComponent`.  In the code, `normalized` raises a
`NameError` (unqualified constant name at vector.py line 57) whose message
matches neither handler, so both operations re-raise the `NameError`
unchanged. -/
theorem c4_zero_basis_raises_name_error :
    Vector.component_parallel_to ⟨[1, 1]⟩ ⟨[0, 0]⟩ =
      Except.error (PyErr.nameError NAME_ERROR_UNBOUND_CONSTANT_MSG) ∧
    Vector.component_orthogonal_to ⟨[1, 1]⟩ ⟨[0, 0]⟩ =
      Except.error (PyErr.nameError NAME_ERROR_UNBOUND_CONSTANT_MSG) := by
  have hz : (Vector.mk [(0 : ℚ), 0]).sumSq = 0 := by norm_num [Vector.sumSq]
  have hn : (Vector.mk [(0 : ℚ), 0]).normalized =
      Except.error (PyErr.nameError NAME_ERROR_UNBOUND_CONSTANT_MSG) := by
    unfold Vector.normalized
    rw [if_pos hz]
  have hp : Vector.component_parallel_to ⟨[1, 1]⟩ ⟨[0, 0]⟩ =
      Except.error (PyErr.nameError NAME_ERROR_UNBOUND_CONSTANT_MSG) := by
    unfold Vector.component_parallel_to
    rw [hn]
    rfl
  refine ⟨hp, ?_⟩
  unfold Vector.component_orthogonal_to
  rw [hp]
  rfl

/-- C6: the claim states that `angle_with` fails with a
`ZeroVectorAngleError` when either vector is zero.  In the code the
`NameError` coming out of `normalized` is caught, printed, compared against
the wrong message, and - the handler having no `else` - the function falls
off the end and returns `None`: no exception escapes and `None` is
returned, in radians mode and in degrees mode alike. -/
theorem c6_angle_with_zero_vector_returns_none :
    Vector.angle_with ⟨[0, 0]⟩ ⟨[1, 1]⟩ false = Except.ok none ∧
    Vector.angle_with ⟨[7, 7]⟩ ⟨[0, 0]⟩ true = Except.ok none := by
  have hz : (Vector.mk [(0 : ℚ), 0]).sumSq = 0 := by norm_num [Vector.sumSq]
  constructor
  · unfold Vector.angle_with
    rw [if_pos (Or.inl hz)]
  · unfold Vector.angle_with
    rw [if_pos (Or.inr hz)]

/-- C5 counterexample: the claim states that `dot`, `plus` and `minus` fail
with a `DimensionMismatch` error on operands of differing dimension.  The
code performs no dimension check anywhere: on a 2-dimensional and a
3-dimensional operand all three operations return a result (built from the
zipped common prefix) instead of failing. -/
theorem c5_no_dimension_check_counterexample :
    Vector.dot ⟨[1, 2]⟩ ⟨[1, 2, 3]⟩ = 5 ∧
    Vector.plus ⟨[1, 2]⟩ ⟨[1, 2, 3]⟩ = [2, 4] ∧
    Vector.minus ⟨[1, 2]⟩ ⟨[1, 2, 3]⟩ = [0, 0] := by
  norm_num [Vector.dot, Vector.plus, Vector.minus, List.zip_cons_cons]

/-- Rounding the exact value `0` to ten fractional digits gives `0`. -/
theorem roundQ10_zero : roundQ10 0 = 0 := by
  rw [roundQ10, roundHalfAwayQ, if_pos (by norm_num)]
  rw [show ((0 : ℚ) * 10 ^ 10 + 1 / 2) = 1 / 2 by ring]
  rw [show ⌊(1 / 2 : ℚ)⌋ = 0 by rw [Int.floor_eq_iff]; norm_num]
  norm_num

/-- C1: the claim states the three-way contract of `intersection_with`,
in particular that with a zero rounded determinant and equal lines the
result is `self`.  On the repository's own demo input (line.py lines
161-163) the determinant is exactly zero and the lines are coincident
(`(10.115, 7.09) = 2.5 * (4.046, 2.836)`, `3.025 = 2.5 * 1.21`), so the
claim requires the result `self`; the code instead propagates the
`AttributeError` raised inside `__eq__`. -/
theorem c1_intersection_with_crashes_on_coincident_lines :
    Line.intersection_with ⟨⟨[4.046, 2.836]⟩, 1.21⟩ ⟨⟨[10.115, 7.09]⟩, 3.025⟩ =
      Except.error (PyErr.attributeError ATTR_ERROR_LIST_MSG) := by
  have hs1 : (Vector.mk [(4.046 : ℚ), 2.836]).sumSq ≠ 0 := by norm_num [Vector.sumSq]
  have hs2 : (Vector.mk [(10.115 : ℚ), 7.09]).sumSq ≠ 0 := by norm_num [Vector.sumSq]
  have hz1 : (Vector.mk [(4.046 : ℚ), 2.836]).is_zero = false := by
    rw [Vector.is_zero, decide_eq_false_iff_not]
    norm_num [Vector.sumSq, eps]
  have hz2 : (Vector.mk [(10.115 : ℚ), 7.09]).is_zero = false := by
    rw [Vector.is_zero, decide_eq_false_iff_not]
    norm_num [Vector.sumSq, eps]
  have hm1 : (Vector.mk [(4.046 : ℚ), 2.836]).magnitude = Real.sqrt 24.413012 := by
    rw [Vector.magnitude]
    norm_num [Vector.sumSq]
  have hm2 : (Vector.mk [(10.115 : ℚ), 7.09]).magnitude = Real.sqrt 152.581325 := by
    rw [Vector.magnitude]
    norm_num [Vector.sumSq]
  have hd : (((4.046 : ℚ) * 10.115 + 2.836 * 7.09 : ℚ) : ℝ) =
      (Vector.mk [(4.046 : ℚ), 2.836]).magnitude *
        (Vector.mk [(10.115 : ℚ), 7.09]).magnitude := by
    rw [hm1, hm2, ← Real.sqrt_mul (by norm_num)]
    rw [show (24.413012 : ℝ) * 152.581325 = 61.03253 ^ 2 by norm_num]
    rw [Real.sqrt_sq (by norm_num)]
    norm_num
  have habs1 : eps ≤ |(4.046 : ℚ)| := by
    rw [abs_of_pos (by norm_num : (0 : ℚ) < 4.046)]
    norm_num [eps]
  have habs2 : eps ≤ |(10.115 : ℚ)| := by
    rw [abs_of_pos (by norm_num : (0 : ℚ) < 10.115)]
    norm_num [eps]
  have hbp1 : (Line.mk ⟨[(4.046 : ℚ), 2.836]⟩ 1.21).basepoint =
      some ⟨[(1.21 : ℚ) / 4.046, 0]⟩ := by
    unfold Line.basepoint
    rw [set_basepoint_fst 4.046 2.836 1.21 habs1]
  have hbp2 : (Line.mk ⟨[(10.115 : ℚ), 7.09]⟩ 3.025).basepoint =
      some ⟨[(3.025 : ℚ) / 10.115, 0]⟩ := by
    unfold Line.basepoint
    rw [set_basepoint_fst 10.115 7.09 3.025 habs2]
  have heq : Line.eq ⟨⟨[4.046, 2.836]⟩, 1.21⟩ ⟨⟨[10.115, 7.09]⟩, 3.025⟩ =
      Except.error (PyErr.attributeError ATTR_ERROR_LIST_MSG) :=
    line_eq_crash _ _ hz1 hz2
      (Or.inr (Or.inr (Or.inl
        (angle_radians_eq_zero 4.046 2.836 10.115 7.09 hs1 hs2 hd))))
      _ _ hbp1 hbp2
  have hdet : roundQ10 ((4.046 : ℚ) * 7.09 - 2.836 * 10.115) = 0 := by
    rw [show (4.046 : ℚ) * 7.09 - 2.836 * 10.115 = 0 by norm_num, roundQ10_zero]
  simp [Line.intersection_with, hdet, heq]

/-- Auxiliary for the amended C5: zipping truncates both lists to the
length of the other. -/
theorem zip_take_zip (xs ys : List ℚ) :
    xs.zip ys = (xs.take ys.length).zip (ys.take xs.length) := by
  induction xs generalizing ys with
  | nil => simp
  | cons x xs ih =>
    cases ys with
    | nil => simp
    | cons y ys =>
      simp only [List.zip_cons_cons, List.length_cons, List.take_succ_cons]
      rw [← ih ys]

/-- C5 amended: `dot`, `plus` and `minus` perform no dimension check; on
operands of differing dimension each silently operates on the zipped
common prefix - `dot` equals the dot product of both operands truncated to
the other operand's dimension, and `plus` and `minus` return sequences of
length `min` of the two dimensions. -/
theorem c5_amended_silent_truncation (v w : Vector) :
    v.dot w = Vector.dot ⟨v.coordinates.take w.dimension⟩
      ⟨w.coordinates.take v.dimension⟩ ∧
    (v.plus w).length = min v.dimension w.dimension ∧
    (v.minus w).length = min v.dimension w.dimension := by
  refine ⟨?_, ?_, ?_⟩
  · rw [Vector.dot, Vector.dot]
    simp only [Vector.dimension]
    rw [← zip_take_zip]
  · simp [Vector.plus, Vector.dimension, List.length_zip]
  · simp [Vector.minus, Vector.dimension, List.length_zip]

/-- C7: for a 2-dimensional normal vector `(A, B)` with constant term `c`,
`set_basepoint` stores the absence marker (no error) when both
coefficients are within the `1e-10` near-zero tolerance, and otherwise a
point with `c / coefficient` at the first index failing the near-zero test
and `0` at the other index.  ("Exceeds the tolerance" is formalized as the
complement of the source's `abs(x) < 1e-10` test, i.e. `1e-10 <= abs(x)`.) -/
theorem c7_set_basepoint_cases (A B c : ℚ) :
    (|A| < eps → |B| < eps →
      Line.set_basepoint ⟨⟨[A, B]⟩, c⟩ = Except.ok none) ∧
    (eps ≤ |A| →
      Line.set_basepoint ⟨⟨[A, B]⟩, c⟩ = Except.ok (some ⟨[c / A, 0]⟩)) ∧
    (|A| < eps → eps ≤ |B| →
      Line.set_basepoint ⟨⟨[A, B]⟩, c⟩ = Except.ok (some ⟨[0, c / B]⟩)) :=
  ⟨set_basepoint_none A B c, set_basepoint_fst A B c, set_basepoint_snd A B c⟩

/-- C7 witness: the line `0*x + 3*y = 6` has basepoint `(0, 6/3)`. -/
theorem c7_set_basepoint_witness :
    (|(0 : ℚ)| < eps ∧ eps ≤ |(3 : ℚ)|) ∧
    Line.set_basepoint ⟨⟨[0, 3]⟩, 6⟩ = Except.ok (some ⟨[0, 6 / 3]⟩) :=
  ⟨⟨by norm_num [eps], by norm_num [eps]⟩,
    (c7_set_basepoint_cases 0 3 6).2.2 (by norm_num [eps]) (by norm_num [eps])⟩

/-- Elementwise cancellation: adding back what `minus` removed restores the
original list, provided the lengths agree. -/
theorem plusR_minusR (ys xs : List ℝ) (h : ys.length = xs.length) :
    plusR ys (minusR xs ys) = xs := by
  induction ys generalizing xs with
  | nil =>
    cases xs with
    | nil => rfl
    | cons x xs => simp at h
  | cons y t ih =>
    cases xs with
    | nil => simp at h
    | cons x s =>
      have h' : t.length = s.length := by simpa using h
      simp only [plusR, minusR, List.zip_cons_cons, List.map_cons]
      rw [show y + (x - y) = x by ring]
      congr 1
      simpa [plusR, minusR] using ih s h'

/-- C8: for every vector and every nonzero basis of the same dimension,
both components are computed without failure and their elementwise sum is
exactly (hence in particular within any tolerance of) the original
vector. -/
theorem c8_parallel_plus_orthogonal_eq (v basis : Vector)
    (hb : basis.sumSq ≠ 0) (hdim : v.dimension = basis.dimension) :
    ∃ par orth : List ℝ,
      v.component_parallel_to basis = Except.ok par ∧
      v.component_orthogonal_to basis = Except.ok orth ∧
      plusR par orth = toR v := by
  have hn : basis.normalized = Except.ok basis.normalizedVal := by
    unfold Vector.normalized
    rw [if_neg hb]
  have hpar : v.component_parallel_to basis =
      Except.ok (times_scalarR (dotR (toR v) basis.normalizedVal)
        basis.normalizedVal) := by
    unfold Vector.component_parallel_to
    rw [hn]
  have horth : v.component_orthogonal_to basis =
      Except.ok (minusR (toR v)
        (times_scalarR (dotR (toR v) basis.normalizedVal)
          basis.normalizedVal)) := by
    unfold Vector.component_orthogonal_to
    rw [hpar]
  refine ⟨_, _, hpar, horth, ?_⟩
  apply plusR_minusR
  simp only [Vector.dimension] at hdim
  simp only [times_scalarR, Vector.normalizedVal, toR, List.length_map]
  exact hdim.symm

/-- C8 witness: decomposing `(3, 4)` along the basis `(1, 0)`. -/
theorem c8_parallel_plus_orthogonal_witness :
    (Vector.mk [(1 : ℚ), 0]).sumSq ≠ 0 ∧
    (Vector.mk [(3 : ℚ), 4]).dimension = (Vector.mk [(1 : ℚ), 0]).dimension ∧
    ∃ par orth : List ℝ,
      Vector.component_parallel_to ⟨[3, 4]⟩ ⟨[1, 0]⟩ = Except.ok par ∧
      Vector.component_orthogonal_to ⟨[3, 4]⟩ ⟨[1, 0]⟩ = Except.ok orth ∧
      plusR par orth = toR ⟨[3, 4]⟩ :=
  ⟨by norm_num [Vector.sumSq], rfl,
    c8_parallel_plus_orthogonal_eq ⟨[3, 4]⟩ ⟨[1, 0]⟩ (by norm_num [Vector.sumSq]) rfl⟩

/-- C10: for every in-range nonnegative index, `__getitem__` returns the
i-th coordinate (the Line module reads normal-vector coefficients through
exactly this indexing, see `Line.set_basepoint`). -/
theorem c10_getitem_in_range (v : Vector) (i : Nat) (h : i < v.dimension) :
    v.getItem i = some (v.coordinates.get ⟨i, h⟩) :=
  List.get?_eq_get h

/-- C10 witness: index 1 of the vector `(5, 7, 9)`. -/
theorem c10_getitem_witness :
    1 < (Vector.mk [(5 : ℚ), 7, 9]).dimension ∧
    (Vector.mk [(5 : ℚ), 7, 9]).getItem 1 =
      some ((Vector.mk [(5 : ℚ), 7, 9]).coordinates.get ⟨1, by decide⟩) :=
  ⟨by decide, c10_getitem_in_range ⟨[5, 7, 9]⟩ 1 (by decide)⟩

end LinAlg
